import Mathlib

/-!
Shallow embedding of the PulseLearn learning-platform frontend state layer:
the auth context (`login`, `register`), the data context (`enrollLearner`,
`toggleLessonCompletion`, `issueCertificate`, `progressForEnrollment`,
`createCourse`, `addModule`, `addLesson`) and the dashboard handlers
(`handleToggleLesson`, `handleQuizSubmit`, `handleAddLesson`).
React `setState` updater chains are modelled as pure state-passing
functions; `generateId()` and `new Date().toISOString()` / dayjs
timestamps are modelled as explicit `fresh` / `now` string parameters.
JS `Record<string, T>` maps are modelled as functions with a default.
-/

namespace PulseLearn

/-- Type `Role` from types.ts. -/
inductive Role where
  | admin
  | instructor
  | learner
deriving DecidableEq, Repr

/-- Type `User` from types.ts. -/
structure User where
  id : String
  name : String
  email : String
  role : Role
deriving DecidableEq, Repr

/-- Type `QuizQuestion` from types.ts. -/
structure QuizQuestion where
  id : String
  prompt : String
  options : List String
  answer : String
deriving DecidableEq, Repr

/-- The `contentType` union of `Lesson` from types.ts. -/
inductive ContentType where
  | video
  | pdf
  | text
  | quiz
  | assignment
deriving DecidableEq, Repr

/-- Type `Lesson` from types.ts; optional fields become `Option`. -/
structure Lesson where
  id : String
  title : String
  contentType : ContentType
  description : String
  resourceUrl : Option String := none
  quiz : Option (List QuizQuestion) := none
deriving DecidableEq, Repr

/-- Type `Module` from types.ts. -/
structure Module where
  id : String
  title : String
  description : String
  lessons : List Lesson
deriving DecidableEq, Repr

/-- The `level` union of `Course` from types.ts. -/
inductive Level where
  | beginner
  | intermediate
  | advanced
deriving DecidableEq, Repr

/-- Type `Course` from types.ts. -/
structure Course where
  id : String
  title : String
  category : String
  description : String
  instructorId : String
  duration : String
  level : Level
  modules : List Module
  tags : List String
  createdAt : String
deriving DecidableEq, Repr

/-- Type `Enrollment` from types.ts: `completedAt` is the nullable completion
timestamp. -/
structure Enrollment where
  id : String
  courseId : String
  learnerId : String
  enrolledAt : String
  completedLessons : List String
  completedAt : Option String := none
deriving DecidableEq, Repr

/-- The `certificates` state of DataContext:
`Record<learnerId, courseId[]>`, read with a `?? []` default, so it is a
total map into lists. -/
def Certificates : Type := String → List String

/-- Operation `login` from AuthContext: finds a user matching both email and role,
otherwise appends a freshly generated user (name is the part of the email
before the `@`, `Guest` if `split` somehow yields nothing) and signs them
in.  Returns the updated user list and the signed-in user. -/
def login (freshId : String) (users : List User) (email : String) (role : Role) :
    List User × User :=
  match users.find? (fun u => u.email = email && u.role = role) with
  | some match_ => (users, match_)
  | none =>
      let generated : User :=
        { id := freshId
          name := (email.splitOn "@").headD "Guest"
          email := email
          role := role }
      (users ++ [generated], generated)

/-- Operation `register` from AuthContext: if any user already has the email, falls
back to `login` (the supplied name is ignored); otherwise appends a new
user with the supplied name and signs them in. -/
def register (freshId : String) (users : List User) (name email : String) (role : Role) :
    List User × User :=
  if users.any (fun u => u.email = email) then
    login freshId users email role
  else
    let newUser : User := { id := freshId, name := name, email := email, role := role }
    (users ++ [newUser], newUser)

/-- The shared state of DataContext that the claims touch: the `courses`,
`enrollments` and `certificates` `useState` cells. -/
structure DataState where
  courses : List Course
  enrollments : List Enrollment
  certificates : Certificates

/-- Expression `course?.modules.flatMap((m) => m.lessons).length ?? 0` inside
`toggleLessonCompletion`: the total lesson count of the enrolled course,
0 when the course id is unknown. -/
def totalLessonsOf (courses : List Course) (courseId : String) : Nat :=
  match courses.find? (fun c => c.id = courseId) with
  | some course => (course.modules.flatMap (fun m => m.lessons)).length
  | none => 0

/-- The certificate-store update shared verbatim by `issueCertificate` and
the completion branch of `toggleLessonCompletion`: if the learner already
holds a certificate for the course the store is returned unchanged,
otherwise the course id is appended to the learner's list. -/
def addCert (certs : Certificates) (learnerId courseId : String) : Certificates :=
  let current := certs learnerId
  if courseId ∈ current then certs
  else fun l => if l = learnerId then current ++ [courseId] else certs l

/-- Operation `issueCertificate(courseId, learnerId)` from DataContext. -/
def issueCertificate (certs : Certificates) (courseId learnerId : String) : Certificates :=
  addCert certs learnerId courseId

/-- The per-enrollment transform inside `toggleLessonCompletion`'s
`prev.map`: membership of `lessonId` in `completedLessons` is toggled
(filtered out when present, appended when absent) and `completedAt` is
recomputed from scratch: it is `now` exactly when the course has more than
zero lessons and the updated completed count equals that total, and
`undefined` otherwise. -/
def toggleEnrollment (courses : List Course) (now lessonId : String)
    (e : Enrollment) : Enrollment :=
  let already := lessonId ∈ e.completedLessons
  let updatedLessons :=
    if already then e.completedLessons.filter (fun id => id ≠ lessonId)
    else e.completedLessons ++ [lessonId]
  let totalLessons := totalLessonsOf courses e.courseId
  let completedAt :=
    if 0 < totalLessons ∧ updatedLessons.length = totalLessons then some now
    else none
  { e with completedLessons := updatedLessons, completedAt := completedAt }

/-- One step of the `prev.map` in `toggleLessonCompletion`, threading the
`setCertificates` side effect fired inside the map callback: a matching
enrollment is rewritten by `toggleEnrollment`, and when its recomputed
`completedAt` is set the guarded certificate append runs. -/
def toggleStep (courses : List Course) (now enrollmentId lessonId : String)
    (acc : List Enrollment × Certificates) (e : Enrollment) :
    List Enrollment × Certificates :=
  if e.id = enrollmentId then
    let updated := toggleEnrollment courses now lessonId e
    let certs :=
      if updated.completedAt.isSome then addCert acc.2 e.learnerId e.courseId
      else acc.2
    (acc.1 ++ [updated], certs)
  else (acc.1 ++ [e], acc.2)

/-- Operation `toggleLessonCompletion(enrollmentId, lessonId)` from DataContext. -/
def toggleLessonCompletion (now : String) (s : DataState)
    (enrollmentId lessonId : String) : DataState :=
  let folded :=
    s.enrollments.foldl (toggleStep s.courses now enrollmentId lessonId)
      ([], s.certificates)
  { s with enrollments := folded.1, certificates := folded.2 }

/-- Operation `enrollLearner(courseId, learnerId)` from DataContext: a silent no-op
when an enrollment for the pair already exists, otherwise appends a fresh
enrollment with an empty completed set and no completion timestamp.  No
check on the course is made. -/
def enrollLearner (freshId now : String) (s : DataState)
    (courseId learnerId : String) : DataState :=
  if s.enrollments.any (fun e => e.courseId = courseId && e.learnerId = learnerId) then s
  else
    { s with enrollments := s.enrollments ++
        [{ id := freshId
           courseId := courseId
           learnerId := learnerId
           enrolledAt := now
           completedLessons := []
           completedAt := none }] }

/-- The `Omit<Course, 'id' | 'createdAt'>` payload of `createCourse`. -/
structure CoursePayload where
  title : String
  category : String
  description : String
  instructorId : String
  duration : String
  level : Level
  modules : List Module
  tags : List String
deriving DecidableEq, Repr

/-- Operation `createCourse(payload)` from DataContext: prepends a course with a
generated id and the current timestamp. -/
def createCourse (freshId now : String) (s : DataState) (payload : CoursePayload) :
    DataState :=
  { s with courses :=
      { id := freshId
        title := payload.title
        category := payload.category
        description := payload.description
        instructorId := payload.instructorId
        duration := payload.duration
        level := payload.level
        modules := payload.modules
        tags := payload.tags
        createdAt := now } :: s.courses }

/-- Operation `addModule(courseId, module)` from DataContext. -/
def addModule (s : DataState) (courseId : String) (m : Module) : DataState :=
  { s with courses := s.courses.map (fun course =>
      if course.id = courseId then { course with modules := course.modules ++ [m] }
      else course) }

/-- Operation `addLesson(courseId, moduleId, lesson)` from DataContext. -/
def addLesson (s : DataState) (courseId moduleId : String) (lesson : Lesson) :
    DataState :=
  { s with courses := s.courses.map (fun course =>
      if course.id = courseId then
        { course with modules := course.modules.map (fun m =>
            if m.id = moduleId then { m with lessons := m.lessons ++ [lesson] }
            else m) }
      else course) }

/-- JS `Math.round` on a non-negative value: round half towards plus
infinity, i.e. the floor of the argument plus one half. -/
def mathRound (q : ℚ) : ℤ := ⌊q + 1 / 2⌋

/-- Operation `progressForEnrollment(enrollment, course)` from DataContext:
`Math.round((completedLessons.length / totalLessons) * 100)`, and 0 when
the course has no lessons.  (`LearnerDashboard`'s `progress` memo computes
the same expression.) -/
def progressForEnrollment (e : Enrollment) (c : Course) : ℤ :=
  let totalLessons := (c.modules.flatMap (fun m => m.lessons)).length
  if totalLessons = 0 then 0
  else mathRound ((e.completedLessons.length : ℚ) / totalLessons * 100)

/-- The per-lesson quiz answer selection state of LearnerDashboard
(`quizState : Record<string, string>`): a partial map from lesson id to
the currently selected option. -/
def QuizState : Type := String → Option String

/-- The per-lesson feedback messages of LearnerDashboard
(`quizFeedback : Record<string, string>`). -/
def QuizFeedback : Type := String → Option String

/-- Handler `handleToggleLesson(lesson)` from LearnerDashboard: with an active
enrollment it calls `toggleLessonCompletion` for the lesson — for every
content type, quizzes included, with no answer check — and clears the
lesson's quiz feedback.  Without an active enrollment it does nothing. -/
def handleToggleLesson (now : String) (s : DataState)
    (activeEnrollment : Option Enrollment) (fb : QuizFeedback) (lesson : Lesson) :
    DataState × QuizFeedback :=
  match activeEnrollment with
  | none => (s, fb)
  | some e =>
      (toggleLessonCompletion now s e.id lesson.id,
       fun l => if l = lesson.id then some "" else fb l)

/-- Handler `handleQuizSubmit(lesson)` from LearnerDashboard: does nothing without
a non-empty quiz and an active enrollment; asks for a selection when none
is made; on a correct answer calls `toggleLessonCompletion` and posts a
success message; on an incorrect answer leaves the data state untouched
and posts a retry message. -/
def handleQuizSubmit (now : String) (s : DataState)
    (activeEnrollment : Option Enrollment) (qs : QuizState) (fb : QuizFeedback)
    (lesson : Lesson) : DataState × QuizFeedback :=
  match lesson.quiz, activeEnrollment with
  | some (q :: _), some e =>
      (match qs lesson.id with
       | none =>
           (s, fun l => if l = lesson.id then some "Select an option to continue." else fb l)
       | some selected =>
           if selected = q.answer then
             (toggleLessonCompletion now s e.id lesson.id,
              fun l => if l = lesson.id then some "Great job! Lesson completed." else fb l)
           else
             (s, fun l => if l = lesson.id then some "Try again — revisit the lesson notes." else fb l))
  | _, _ => (s, fb)

/-- The `Partial<Lesson>` draft state of InstructorDashboard. -/
structure LessonDraft where
  id : Option String := none
  title : Option String := none
  contentType : Option ContentType := none
  description : Option String := none
  resourceUrl : Option String := none
  quiz : Option (List QuizQuestion) := none
deriving DecidableEq, Repr

/-- Handler `handleAddLesson` from InstructorDashboard: does nothing without a
selected course or when the course has no modules; otherwise appends the
drafted lesson (defaults filled in) to the course's last module via
`addLesson`.  There is no check that a lesson carries a quiz. -/
def handleAddLesson (freshId : String) (s : DataState)
    (selectedCourse : Option Course) (lesson : LessonDraft) : DataState :=
  match selectedCourse with
  | none => s
  | some course =>
      match course.modules.getLast? with
      | none => s
      | some targetModule =>
          addLesson s course.id targetModule.id
            { id := freshId
              title := lesson.title.getD "Untitled lesson"
              contentType := lesson.contentType.getD ContentType.video
              description := lesson.description.getD "Lesson description coming soon."
              resourceUrl := lesson.resourceUrl
              quiz := lesson.quiz }

/-- The operations exported by DataContext that mutate the shared state,
as a syntax of events, with the generated ids and timestamps of each call
recorded in the event. -/
inductive Op where
  | opCreateCourse (freshId now : String) (payload : CoursePayload)
  | opAddModule (courseId : String) (m : Module)
  | opAddLesson (courseId moduleId : String) (lesson : Lesson)
  | opEnroll (freshId now courseId learnerId : String)
  | opToggle (now enrollmentId lessonId : String)
  | opIssue (courseId learnerId : String)
deriving Repr

/-- Interpretation of one DataContext operation on the shared state. -/
def step (s : DataState) : Op → DataState
  | Op.opCreateCourse freshId now payload => createCourse freshId now s payload
  | Op.opAddModule courseId m => addModule s courseId m
  | Op.opAddLesson courseId moduleId lesson => addLesson s courseId moduleId lesson
  | Op.opEnroll freshId now courseId learnerId => enrollLearner freshId now s courseId learnerId
  | Op.opToggle now enrollmentId lessonId => toggleLessonCompletion now s enrollmentId lessonId
  | Op.opIssue courseId learnerId =>
      { s with certificates := issueCertificate s.certificates courseId learnerId }

/-- A whole session: the operations applied in order. -/
def applyOps (s : DataState) (ops : List Op) : DataState :=
  ops.foldl step s

/-- The seeded course `c-design-thinking` from DataContext
(`seedCourses`); the dayjs creation timestamp is a parameter. -/
def seedCourse (instructorId createdAt : String) : Course :=
  { id := "c-design-thinking"
    title := "Design Thinking Foundations"
    category := "Product Design"
    description := "Learn how to craft learner-centric experiences with empathy mapping, ideation frameworks, and rapid prototyping."
    instructorId := instructorId
    duration := "4h 30m"
    level := Level.beginner
    tags := ["Innovation", "Creativity"]
    createdAt := createdAt
    modules :=
      [{ id := "m-1"
         title := "Empathy & Research"
         description := "Understand your learners and capture true needs."
         lessons :=
           [{ id := "l-1"
              title := "Observational Research"
              contentType := ContentType.video
              description := "A 12-minute walkthrough on shadowing techniques."
              resourceUrl := some "https://www.loom.com/share/design-thinking-observation" },
            { id := "l-2"
              title := "Problem Statements"
              contentType := ContentType.assignment
              description := "Upload your POV statement for peer review." },
            { id := "l-3"
              title := "Empathy Quiz"
              contentType := ContentType.quiz
              description := "Short check-in on empathy methods."
              quiz := some
                [{ id := "q-1"
                   prompt := "Which artefact best captures a learner need?"
                   options := ["Interview recording", "Persona empathy map", "Survey link", "Course outline"]
                   answer := "Persona empathy map" }] }] }] }

/-- The initial DataProvider state the claims range over: the seeded
course, the seeded enrollment `enroll-1` (lesson `l-1` already completed,
no completion timestamp), and a certificate store that is empty for every
learner (the seeded record maps only `u-learner`, to an empty list, which
reads equal to the empty default). -/
def initialDataState (instructorId createdAt enrolledAt : String) : DataState :=
  { courses := [seedCourse instructorId createdAt]
    enrollments :=
      [{ id := "enroll-1"
         courseId := "c-design-thinking"
         learnerId := "u-learner"
         enrolledAt := enrolledAt
         completedLessons := ["l-1"]
         completedAt := none }]
    certificates := fun _ => [] }

/-- Constant `initialUsers` from AuthContext. -/
def initialUsers : List User :=
  [{ id := "u-admin", name := "Alicia Rhodes", email := "admin@pulselearn.com", role := Role.admin },
   { id := "u-mentor", name := "Jonah Patel", email := "mentor@pulselearn.com", role := Role.instructor },
   { id := "u-learner", name := "Jordan Chen", email := "jordan@pulselearn.com", role := Role.learner }]

/-- Modelled from the spec: the progress formula the spec prescribes,
`floor(100 * completed.size / totalAssessable)` and 0 when
`totalAssessable` is 0, for comparison with the code's
`progressForEnrollment`. -/
def floorProgressSpec (e : Enrollment) (c : Course) : ℤ :=
  let totalLessons := (c.modules.flatMap (fun m => m.lessons)).length
  if totalLessons = 0 then 0
  else ⌊(100 * (e.completedLessons.length : ℚ)) / totalLessons⌋

/-- At most one certificate per (learner, course) pair: every learner's
certificate list is duplicate-free. -/
def certAtMostOnce (certs : Certificates) : Prop :=
  ∀ learnerId, (certs learnerId).Nodup

/-- C9: `login` always succeeds: the signed-in user carries the requested
email and role; when no stored user matches both the email and the role,
a fresh user (name taken from the email, role as requested — admin
included) is appended and signed in; and `register` with an
already-registered email ignores the supplied name and behaves exactly
like `login`. -/
theorem c9_login_never_rejects (freshId : String) (users : List User)
    (email : String) (role : Role) :
    ((login freshId users email role).2.email = email ∧
      (login freshId users email role).2.role = role) ∧
    ((∀ u ∈ users, ¬(u.email = email ∧ u.role = role)) →
      (login freshId users email role).1 =
        users ++ [{ id := freshId, name := (email.splitOn "@").headD "Guest",
                    email := email, role := role }] ∧
      (login freshId users email role).2 =
        { id := freshId, name := (email.splitOn "@").headD "Guest",
          email := email, role := role }) ∧
    (∀ name, (∃ u ∈ users, u.email = email) →
      register freshId users name email role = login freshId users email role) := by
  refine ⟨?_, ?_, ?_⟩
  · unfold login
    cases hfind : users.find? (fun u => u.email = email && u.role = role) with
    | none => simp
    | some u =>
        have hu := List.find?_some hfind
        simp only [Bool.and_eq_true, decide_eq_true_eq] at hu
        simp [hu.1, hu.2]
  · intro h
    have hnone : users.find? (fun u => u.email = email && u.role = role) = none := by
      rw [List.find?_eq_none]
      intro u hu
      simp only [Bool.and_eq_true, decide_eq_true_eq, not_and]
      intro he hr
      exact h u hu ⟨he, hr⟩
    simp [login, hnone]
  · intro name hex
    have hany : users.any (fun u => u.email = email) = true := by
      rw [List.any_eq_true]
      obtain ⟨u, hu, he⟩ := hex
      exact ⟨u, hu, by simp [he]⟩
    simp [register, hany]

/-- Witness for C9 at the seeded user list: `"new@x.com"` matches no
stored admin, so an admin account is created and signed in, and
registering with the already-stored admin email falls back to `login`. -/
theorem c9_witness :
    (login "u-9" initialUsers "new@x.com" Role.admin).1 =
      initialUsers ++
        [{ id := "u-9", name := ("new@x.com".splitOn "@").headD "Guest",
           email := "new@x.com", role := Role.admin }] ∧
    register "u-9" initialUsers "Ignored Name" "admin@pulselearn.com" Role.learner =
      login "u-9" initialUsers "admin@pulselearn.com" Role.learner := by
  refine ⟨?_, ?_⟩
  · exact ((c9_login_never_rejects "u-9" initialUsers "new@x.com" Role.admin).2.1
      (by decide)).1
  · exact (c9_login_never_rejects "u-9" initialUsers "admin@pulselearn.com" Role.learner).2.2
      "Ignored Name" (by decide)

/-- C10: `issueCertificate` is a no-op when the learner already holds a
certificate for the course, and otherwise appends the course to the
learner's certificate list, leaving every other learner untouched; the
statement quantifies over arbitrary certificate stores and ids, with no
precondition about enrollment, course existence, or completion. -/
theorem c10_issueCertificate_unconditional (certs : Certificates)
    (courseId learnerId : String) :
    (courseId ∈ certs learnerId → issueCertificate certs courseId learnerId = certs) ∧
    (courseId ∉ certs learnerId →
      issueCertificate certs courseId learnerId learnerId = certs learnerId ++ [courseId] ∧
      ∀ l, l ≠ learnerId → issueCertificate certs courseId learnerId l = certs l) := by
  refine ⟨fun h => ?_, fun h => ⟨?_, fun l hl => ?_⟩⟩
  · simp [issueCertificate, addCert, h]
  · simp [issueCertificate, addCert, h]
  · simp [issueCertificate, addCert, h, hl]

/-- Witness for C10 on an empty certificate store: a certificate is
recorded for a pair with no enrollment, course, or completion anywhere in
sight. -/
theorem c10_witness :
    issueCertificate (fun _ => []) "c-ghost" "u-1" "u-1" = ["c-ghost"] := by
  have h := (c10_issueCertificate_unconditional (fun _ => []) "c-ghost" "u-1").2 (by simp)
  simpa using h.1

/-- C7 counterexample: `enrollLearner` creates an enrollment for a course
id that matches no course at all (so in particular no published course),
instead of failing with `CourseNotPublished`; and a repeated call is a
silent no-op rather than an `AlreadyEnrolled` failure — the operation has
no error channel. -/
theorem c7_counterexample :
    ((enrollLearner "e-1" "t-0"
        { courses := [], enrollments := [], certificates := fun _ => [] }
        "c-ghost" "u-1").enrollments =
      [{ id := "e-1", courseId := "c-ghost", learnerId := "u-1", enrolledAt := "t-0",
         completedLessons := [], completedAt := none }]) ∧
    ((enrollLearner "e-2" "t-1"
        { courses := [],
          enrollments :=
            [{ id := "e-1", courseId := "c-ghost", learnerId := "u-1", enrolledAt := "t-0",
               completedLessons := [], completedAt := none }],
          certificates := fun _ => [] }
        "c-ghost" "u-1").enrollments =
      [{ id := "e-1", courseId := "c-ghost", learnerId := "u-1", enrolledAt := "t-0",
         completedLessons := [], completedAt := none }]) := by
  constructor <;> decide

/-- C7 amended: `enrollLearner` silently returns the state unchanged when
an enrollment for the pair already exists, and otherwise appends a fresh
enrollment with an empty completed set and no completion timestamp; it
performs no published-state or course-existence check (the course list is
never consulted and is returned unchanged). -/
theorem c7_enroll_amended (freshId now : String) (s : DataState)
    (courseId learnerId : String) :
    (s.enrollments.any (fun e => e.courseId = courseId && e.learnerId = learnerId) = true →
      enrollLearner freshId now s courseId learnerId = s) ∧
    (s.enrollments.any (fun e => e.courseId = courseId && e.learnerId = learnerId) = false →
      (enrollLearner freshId now s courseId learnerId).enrollments =
        s.enrollments ++
          [{ id := freshId, courseId := courseId, learnerId := learnerId,
             enrolledAt := now, completedLessons := [], completedAt := none }] ∧
      (enrollLearner freshId now s courseId learnerId).courses = s.courses ∧
      (enrollLearner freshId now s courseId learnerId).certificates = s.certificates) := by
  constructor
  · intro h
    simp [enrollLearner, h]
  · intro h
    refine ⟨?_, ?_, ?_⟩ <;> simp [enrollLearner, h]

/-- Witness for C7 amended on the seeded state: the seeded pair is a
no-op, a new pair is appended. -/
theorem c7_witness :
    enrollLearner "e-9" "t-9" (initialDataState "u-mentor" "t-c" "t-e")
        "c-design-thinking" "u-learner" =
      initialDataState "u-mentor" "t-c" "t-e" ∧
    (enrollLearner "e-9" "t-9" (initialDataState "u-mentor" "t-c" "t-e")
        "c-design-thinking" "u-2").enrollments.length = 2 := by
  constructor
  · exact (c7_enroll_amended "e-9" "t-9" (initialDataState "u-mentor" "t-c" "t-e")
      "c-design-thinking" "u-learner").1 (by decide)
  · have h := ((c7_enroll_amended "e-9" "t-9" (initialDataState "u-mentor" "t-c" "t-e")
      "c-design-thinking" "u-2").2 (by decide)).1
    rw [h]
    decide

/-- C8 counterexample: `handleAddLesson` happily adds a quiz-less text
lesson (a topic without a quiz) to the selected course's last module —
the operation succeeds instead of always failing with `IncompleteUnit`,
and no review-workflow submit gate exists in the code. -/
theorem c8_counterexample :
    (handleAddLesson "l-new"
        { courses :=
            [{ id := "c-1", title := "T", category := "Cat", description := "D",
               instructorId := "u-mentor", duration := "1h", level := Level.beginner,
               modules := [{ id := "m-1", title := "M", description := "MD", lessons := [] }],
               tags := [], createdAt := "t-0" }],
          enrollments := [], certificates := fun _ => [] }
        (some { id := "c-1", title := "T", category := "Cat", description := "D",
                instructorId := "u-mentor", duration := "1h", level := Level.beginner,
                modules := [{ id := "m-1", title := "M", description := "MD", lessons := [] }],
                tags := [], createdAt := "t-0" })
        { title := some "Topic without quiz", contentType := some ContentType.text }).courses.map
      (fun c => c.modules.map (fun m => m.lessons.map Lesson.id)) = [[["l-new"]]] := by
  decide

/-- C8 amended: whenever the selected course has at least one module,
`handleAddLesson` unconditionally hands the drafted lesson — with its
`quiz` field passed through unchecked, `none` included — to `addLesson`
targeting the last module; a topic lacking a quiz is added, never
rejected. -/
theorem c8_addLesson_amended (freshId : String) (s : DataState) (course : Course)
    (m : Module) (draft : LessonDraft) (hm : course.modules.getLast? = some m) :
    handleAddLesson freshId s (some course) draft =
      addLesson s course.id m.id
        { id := freshId
          title := draft.title.getD "Untitled lesson"
          contentType := draft.contentType.getD ContentType.video
          description := draft.description.getD "Lesson description coming soon."
          resourceUrl := draft.resourceUrl
          quiz := draft.quiz } := by
  simp [handleAddLesson, hm]

/-- Witness for C8 amended on a one-module course. -/
theorem c8_witness :
    handleAddLesson "l-new"
        { courses := [], enrollments := [], certificates := fun _ => [] }
        (some { id := "c-1", title := "T", category := "Cat", description := "D",
                instructorId := "u-mentor", duration := "1h", level := Level.beginner,
                modules := [{ id := "m-1", title := "M", description := "MD", lessons := [] }],
                tags := [], createdAt := "t-0" })
        { title := some "Quizless" } =
      addLesson { courses := [], enrollments := [], certificates := fun _ => [] } "c-1" "m-1"
        { id := "l-new", title := "Quizless", contentType := ContentType.video,
          description := "Lesson description coming soon.", resourceUrl := none,
          quiz := none } := by
  exact c8_addLesson_amended "l-new" _ _
    { id := "m-1", title := "M", description := "MD", lessons := [] }
    { title := some "Quizless" } (by decide)

/-- C1 counterexample: from the seeded state, calling
`toggleLessonCompletion` twice with lesson `l-2` does not produce the
state of calling it once — the second call removes the lesson again. -/
theorem c1_counterexample :
    ¬ ((toggleLessonCompletion "now-2"
          (toggleLessonCompletion "now-1"
            (initialDataState "u-mentor" "t-c" "t-e") "enroll-1" "l-2")
          "enroll-1" "l-2").enrollments =
        (toggleLessonCompletion "now-1"
          (initialDataState "u-mentor" "t-c" "t-e") "enroll-1" "l-2").enrollments) := by
  decide

/-- C1 amended: `toggleLessonCompletion` toggles rather than idempotently
marks: per enrollment, two calls with the same lesson id (starting with
the lesson uncompleted) restore the original completed list, and a call
on an already-completed lesson removes it from the completed list instead
of being a no-op. -/
theorem c1_toggle_toggles (courses : List Course) (now1 now2 lessonId : String)
    (e : Enrollment) :
    (lessonId ∉ e.completedLessons →
      (toggleEnrollment courses now2 lessonId
        (toggleEnrollment courses now1 lessonId e)).completedLessons =
        e.completedLessons) ∧
    (lessonId ∈ e.completedLessons →
      (toggleEnrollment courses now1 lessonId e).completedLessons =
        e.completedLessons.filter (fun id => id ≠ lessonId)) := by
  constructor
  · intro h
    simp only [toggleEnrollment, h, if_false]
    simp only [List.mem_append, List.mem_singleton, or_true, if_true]
    rw [List.filter_append]
    have h1 : e.completedLessons.filter (fun id => id ≠ lessonId) = e.completedLessons := by
      apply List.filter_eq_self.mpr
      intro a ha
      have hne : a ≠ lessonId := fun heq => h (heq ▸ ha)
      simp [hne]
    have h2 : ([lessonId].filter (fun id => id ≠ lessonId) : List String) = [] := by simp
    rw [h1, h2, List.append_nil]
  · intro h
    simp [toggleEnrollment, h]

/-- Witness for C1 amended on the seeded enrollment: `l-2` is not yet
completed, so a double toggle restores `["l-1"]`; `l-1` is completed, so
a single toggle removes it. -/
theorem c1_witness :
    (toggleEnrollment [seedCourse "u-mentor" "t-c"] "now-2" "l-2"
        (toggleEnrollment [seedCourse "u-mentor" "t-c"] "now-1" "l-2"
          { id := "enroll-1", courseId := "c-design-thinking", learnerId := "u-learner",
            enrolledAt := "t-e", completedLessons := ["l-1"],
            completedAt := none })).completedLessons = ["l-1"] ∧
    (toggleEnrollment [seedCourse "u-mentor" "t-c"] "now-1" "l-1"
        { id := "enroll-1", courseId := "c-design-thinking", learnerId := "u-learner",
          enrolledAt := "t-e", completedLessons := ["l-1"],
          completedAt := none }).completedLessons = ["l-1"].filter (fun id => id ≠ "l-1") := by
  constructor
  · exact (c1_toggle_toggles [seedCourse "u-mentor" "t-c"] "now-1" "now-2" "l-2"
      { id := "enroll-1", courseId := "c-design-thinking", learnerId := "u-learner",
        enrolledAt := "t-e", completedLessons := ["l-1"], completedAt := none }).1
      (by decide)
  · exact (c1_toggle_toggles [seedCourse "u-mentor" "t-c"] "now-1" "now-1" "l-1"
      { id := "enroll-1", courseId := "c-design-thinking", learnerId := "u-learner",
        enrolledAt := "t-e", completedLessons := ["l-1"], completedAt := none }).2
      (by decide)

/-- C2 counterexample: from the seeded state, completing `l-2` and then
`l-3` sets the completion timestamp, and a further toggle of `l-3` unsets
it again — the timestamp is neither set exactly once nor never unset. -/
theorem c2_counterexample :
    ((toggleLessonCompletion "now-2"
        (toggleLessonCompletion "now-1"
          (initialDataState "u-mentor" "t-c" "t-e") "enroll-1" "l-2")
        "enroll-1" "l-3").enrollments.map Enrollment.completedAt = [some "now-2"]) ∧
    ((toggleLessonCompletion "now-3"
        (toggleLessonCompletion "now-2"
          (toggleLessonCompletion "now-1"
            (initialDataState "u-mentor" "t-c" "t-e") "enroll-1" "l-2")
          "enroll-1" "l-3")
        "enroll-1" "l-3").enrollments.map Enrollment.completedAt = [none]) := by
  constructor <;> decide

/-- C2 amended: the completion timestamp is recomputed on every toggle
step: after the step it equals `now` exactly when the course's lesson
count is positive and the updated completed count equals it, and it is
`undefined` exactly otherwise — so a step that breaks the equality unsets
a previously set timestamp. -/
theorem c2_completedAt_recomputed (courses : List Course) (now lessonId : String)
    (e : Enrollment) :
    ((toggleEnrollment courses now lessonId e).completedAt = some now ↔
      0 < totalLessonsOf courses e.courseId ∧
        (toggleEnrollment courses now lessonId e).completedLessons.length =
          totalLessonsOf courses e.courseId) ∧
    ((toggleEnrollment courses now lessonId e).completedAt = none ↔
      ¬(0 < totalLessonsOf courses e.courseId ∧
        (toggleEnrollment courses now lessonId e).completedLessons.length =
          totalLessonsOf courses e.courseId)) := by
  unfold toggleEnrollment
  dsimp only
  split <;> simp_all

/-- C6 counterexample: the quiz lesson `l-3` becomes completed through
`handleToggleLesson` with no quiz answer selected at all (the quiz state
is empty), so completion of a quiz unit is not gated on a matching
answer. -/
theorem c6_counterexample :
    (handleToggleLesson "now-1" (initialDataState "u-mentor" "t-c" "t-e")
        (some { id := "enroll-1", courseId := "c-design-thinking", learnerId := "u-learner",
                enrolledAt := "t-e", completedLessons := ["l-1"], completedAt := none })
        (fun _ => none)
        { id := "l-3", title := "Empathy Quiz", contentType := ContentType.quiz,
          description := "Short check-in on empathy methods.",
          quiz := some
            [{ id := "q-1", prompt := "Which artefact best captures a learner need?",
               options := ["Interview recording", "Persona empathy map", "Survey link",
                           "Course outline"],
               answer := "Persona empathy map" }] }).1.enrollments.map
      Enrollment.completedLessons = [["l-1", "l-3"]] := by
  decide

/-- C6 amended: `handleQuizSubmit` checks the selected answer against the
stored correct answer: an incorrect submission leaves the data state
untouched and records a retry message, and a correct submission calls
`toggleLessonCompletion` with a success message — but `handleToggleLesson`
completes quiz lessons with no answer check at all. -/
theorem c6_quiz_gate (now : String) (s : DataState) (e : Enrollment)
    (qs : QuizState) (fb : QuizFeedback) (lesson : Lesson)
    (q : QuizQuestion) (rest : List QuizQuestion)
    (hq : lesson.quiz = some (q :: rest)) (selected : String)
    (hsel : qs lesson.id = some selected) :
    (selected ≠ q.answer →
      (handleQuizSubmit now s (some e) qs fb lesson).1 = s ∧
      (handleQuizSubmit now s (some e) qs fb lesson).2 lesson.id =
        some "Try again — revisit the lesson notes.") ∧
    (selected = q.answer →
      (handleQuizSubmit now s (some e) qs fb lesson).1 =
        toggleLessonCompletion now s e.id lesson.id ∧
      (handleQuizSubmit now s (some e) qs fb lesson).2 lesson.id =
        some "Great job! Lesson completed.") := by
  constructor
  · intro h
    simp [handleQuizSubmit, hq, hsel, h]
  · intro h
    simp [handleQuizSubmit, hq, hsel, h]

/-- Witness for C6 on the seeded quiz lesson: a wrong answer leaves the
state unchanged with a retry message; the correct answer completes the
lesson. -/
theorem c6_witness :
    ((handleQuizSubmit "now-1" (initialDataState "u-mentor" "t-c" "t-e")
        (some { id := "enroll-1", courseId := "c-design-thinking", learnerId := "u-learner",
                enrolledAt := "t-e", completedLessons := ["l-1"], completedAt := none })
        (fun _ => some "Survey link") (fun _ => none)
        { id := "l-3", title := "Empathy Quiz", contentType := ContentType.quiz,
          description := "Short check-in on empathy methods.",
          quiz := some
            [{ id := "q-1", prompt := "Which artefact best captures a learner need?",
               options := ["Interview recording", "Persona empathy map", "Survey link",
                           "Course outline"],
               answer := "Persona empathy map" }] }).1 =
      initialDataState "u-mentor" "t-c" "t-e") ∧
    ((handleQuizSubmit "now-1" (initialDataState "u-mentor" "t-c" "t-e")
        (some { id := "enroll-1", courseId := "c-design-thinking", learnerId := "u-learner",
                enrolledAt := "t-e", completedLessons := ["l-1"], completedAt := none })
        (fun _ => some "Persona empathy map") (fun _ => none)
        { id := "l-3", title := "Empathy Quiz", contentType := ContentType.quiz,
          description := "Short check-in on empathy methods.",
          quiz := some
            [{ id := "q-1", prompt := "Which artefact best captures a learner need?",
               options := ["Interview recording", "Persona empathy map", "Survey link",
                           "Course outline"],
               answer := "Persona empathy map" }] }).1 =
      toggleLessonCompletion "now-1" (initialDataState "u-mentor" "t-c" "t-e")
        "enroll-1" "l-3") := by
  constructor
  · exact ((c6_quiz_gate "now-1" (initialDataState "u-mentor" "t-c" "t-e")
      { id := "enroll-1", courseId := "c-design-thinking", learnerId := "u-learner",
        enrolledAt := "t-e", completedLessons := ["l-1"], completedAt := none }
      (fun _ => some "Survey link") (fun _ => none)
      { id := "l-3", title := "Empathy Quiz", contentType := ContentType.quiz,
        description := "Short check-in on empathy methods.",
        quiz := some
          [{ id := "q-1", prompt := "Which artefact best captures a learner need?",
             options := ["Interview recording", "Persona empathy map", "Survey link",
                         "Course outline"],
             answer := "Persona empathy map" }] }
      { id := "q-1", prompt := "Which artefact best captures a learner need?",
        options := ["Interview recording", "Persona empathy map", "Survey link",
                    "Course outline"],
        answer := "Persona empathy map" } [] rfl "Survey link" rfl).1
      (by decide)).1
  · exact ((c6_quiz_gate "now-1" (initialDataState "u-mentor" "t-c" "t-e")
      { id := "enroll-1", courseId := "c-design-thinking", learnerId := "u-learner",
        enrolledAt := "t-e", completedLessons := ["l-1"], completedAt := none }
      (fun _ => some "Persona empathy map") (fun _ => none)
      { id := "l-3", title := "Empathy Quiz", contentType := ContentType.quiz,
        description := "Short check-in on empathy methods.",
        quiz := some
          [{ id := "q-1", prompt := "Which artefact best captures a learner need?",
             options := ["Interview recording", "Persona empathy map", "Survey link",
                         "Course outline"],
             answer := "Persona empathy map" }] }
      { id := "q-1", prompt := "Which artefact best captures a learner need?",
        options := ["Interview recording", "Persona empathy map", "Survey link",
                    "Course outline"],
        answer := "Persona empathy map" } [] rfl "Persona empathy map" rfl).2
      rfl).1

lemma mathRound_ratio (n t : ℕ) (ht : t ≠ 0) :
    mathRound ((n : ℚ) / t * 100) = ((200 * n + t : ℕ) : ℤ) / ((2 * t : ℕ) : ℤ) := by
  have ht' : (t : ℚ) ≠ 0 := Nat.cast_ne_zero.mpr ht
  have key : (n : ℚ) / t * 100 + 1 / 2 =
      (((200 * n + t : ℕ) : ℤ) : ℚ) / ((2 * t : ℕ) : ℚ) := by
    push_cast
    field_simp
    ring
  rw [mathRound, key, Rat.floor_intCast_div_natCast]

lemma mathRound_le_100 (n t : ℕ) (ht : t ≠ 0) (hle : n ≤ t) :
    mathRound ((n : ℚ) / t * 100) ≤ 100 := by
  have ht' : (0 : ℚ) < t := by positivity
  have h1 : (n : ℚ) / t ≤ 1 := by
    rw [div_le_one ht']
    exact_mod_cast hle
  have h2 : ⌊(n : ℚ) / t * 100 + 1 / 2⌋ < (101 : ℤ) := by
    apply Int.floor_lt.mpr
    push_cast
    nlinarith
  unfold mathRound
  omega

lemma mathRound_nonneg (n t : ℕ) :
    0 ≤ mathRound ((n : ℚ) / t * 100) := by
  apply Int.floor_nonneg.mpr
  positivity

lemma progressForEnrollment_eq (e : Enrollment) (c : Course)
    (ht : (c.modules.flatMap (fun m => m.lessons)).length ≠ 0) :
    progressForEnrollment e c =
      ((200 * e.completedLessons.length +
          (c.modules.flatMap (fun m => m.lessons)).length : ℕ) : ℤ) /
        ((2 * (c.modules.flatMap (fun m => m.lessons)).length : ℕ) : ℤ) := by
  simp only [progressForEnrollment, if_neg ht]
  exact mathRound_ratio _ _ ht

lemma floorProgressSpec_eq (e : Enrollment) (c : Course)
    (ht : (c.modules.flatMap (fun m => m.lessons)).length ≠ 0) :
    floorProgressSpec e c =
      ((100 * e.completedLessons.length : ℕ) : ℤ) /
        (((c.modules.flatMap (fun m => m.lessons)).length : ℕ) : ℤ) := by
  simp only [floorProgressSpec, if_neg ht]
  have key : 100 * (e.completedLessons.length : ℚ) /
      ((c.modules.flatMap (fun m => m.lessons)).length : ℚ) =
      (((100 * e.completedLessons.length : ℕ) : ℤ) : ℚ) /
        (((c.modules.flatMap (fun m => m.lessons)).length : ℕ) : ℚ) := by
    push_cast
    ring
  rw [key, Rat.floor_intCast_div_natCast]

/-- C5 counterexample: two of the seeded course's three lessons
completed: the code's `progressForEnrollment` rounds `66.67` to `67`
while the spec's floor formula yields `66`. -/
theorem c5_counterexample :
    progressForEnrollment
        { id := "enroll-1", courseId := "c-design-thinking", learnerId := "u-learner",
          enrolledAt := "t-e", completedLessons := ["l-1", "l-2"], completedAt := none }
        (seedCourse "u-mentor" "t-c") = 67 ∧
    floorProgressSpec
        { id := "enroll-1", courseId := "c-design-thinking", learnerId := "u-learner",
          enrolledAt := "t-e", completedLessons := ["l-1", "l-2"], completedAt := none }
        (seedCourse "u-mentor" "t-c") = 66 := by
  constructor
  · rw [progressForEnrollment_eq _ _ (by decide)]
    decide
  · rw [floorProgressSpec_eq _ _ (by decide)]
    decide

/-- C5 amended: the progress operation returns 0 when the course has no
lessons, and otherwise rounds half up rather than flooring:
`Math.round(100 * completed / total)`, which equals the integer division
`(200 * completed + total) / (2 * total)`. -/
theorem c5_progress_is_round (e : Enrollment) (c : Course) :
    ((c.modules.flatMap (fun m => m.lessons)).length = 0 →
      progressForEnrollment e c = 0) ∧
    ((c.modules.flatMap (fun m => m.lessons)).length ≠ 0 →
      progressForEnrollment e c =
        ((200 * e.completedLessons.length +
            (c.modules.flatMap (fun m => m.lessons)).length : ℕ) : ℤ) /
          ((2 * (c.modules.flatMap (fun m => m.lessons)).length : ℕ) : ℤ)) := by
  constructor
  · intro h
    simp [progressForEnrollment, h]
  · intro h
    exact progressForEnrollment_eq e c h

/-- Witness for C5 amended: the `67` of the two-thirds state is exactly
the round-half-up integer division. -/
theorem c5_witness :
    progressForEnrollment
        { id := "enroll-1", courseId := "c-design-thinking", learnerId := "u-learner",
          enrolledAt := "t-e", completedLessons := ["l-2", "l-3"], completedAt := none }
        (seedCourse "u-mentor" "t-c") = 403 / 6 := by
  exact ((c5_progress_is_round
    { id := "enroll-1", courseId := "c-design-thinking", learnerId := "u-learner",
      enrolledAt := "t-e", completedLessons := ["l-2", "l-3"], completedAt := none }
    (seedCourse "u-mentor" "t-c")).2 (by decide)).trans (by decide)

/-- C4 counterexample: from the seeded state (progress 33) a
`toggleLessonCompletion` call on the already-completed `l-1` drops
progress to 0 — not monotonically non-decreasing — and toggling three ids
that are not lessons of the course drives progress to 133, exceeding
100. -/
theorem c4_counterexample :
    ((initialDataState "u-mentor" "t-c" "t-e").enrollments.map
        (fun e => progressForEnrollment e (seedCourse "u-mentor" "t-c")) = [33]) ∧
    ((toggleLessonCompletion "now-1" (initialDataState "u-mentor" "t-c" "t-e")
        "enroll-1" "l-1").enrollments.map
        (fun e => progressForEnrollment e (seedCourse "u-mentor" "t-c")) = [0]) ∧
    ((applyOps (initialDataState "u-mentor" "t-c" "t-e")
        [Op.opToggle "n-1" "enroll-1" "x-1", Op.opToggle "n-2" "enroll-1" "x-2",
         Op.opToggle "n-3" "enroll-1" "x-3"]).enrollments.map
        (fun e => progressForEnrollment e (seedCourse "u-mentor" "t-c")) = [133]) := by
  refine ⟨?_, ?_, ?_⟩
  · rw [show (initialDataState "u-mentor" "t-c" "t-e").enrollments =
        [{ id := "enroll-1", courseId := "c-design-thinking", learnerId := "u-learner",
           enrolledAt := "t-e", completedLessons := ["l-1"], completedAt := none }] from rfl,
      List.map_cons, List.map_nil, progressForEnrollment_eq _ _ (by decide)]
    decide
  · rw [show (toggleLessonCompletion "now-1" (initialDataState "u-mentor" "t-c" "t-e")
          "enroll-1" "l-1").enrollments =
        [{ id := "enroll-1", courseId := "c-design-thinking", learnerId := "u-learner",
           enrolledAt := "t-e", completedLessons := [], completedAt := none }] from by decide,
      List.map_cons, List.map_nil, progressForEnrollment_eq _ _ (by decide)]
    decide
  · rw [show (applyOps (initialDataState "u-mentor" "t-c" "t-e")
        [Op.opToggle "n-1" "enroll-1" "x-1", Op.opToggle "n-2" "enroll-1" "x-2",
         Op.opToggle "n-3" "enroll-1" "x-3"]).enrollments =
        [{ id := "enroll-1", courseId := "c-design-thinking", learnerId := "u-learner",
           enrolledAt := "t-e", completedLessons := ["l-1", "x-1", "x-2", "x-3"],
           completedAt := none }] from by decide,
      List.map_cons, List.map_nil, progressForEnrollment_eq _ _ (by decide)]
    decide

/-- C4 amended: progress is not monotone (a toggle can remove a completed
lesson) and can exceed 100 for completed ids outside the course, but for
any enrollment whose completed list is duplicate-free and drawn from the
course's lesson ids the value stays within 0 and 100. -/
theorem c4_progress_bounds (e : Enrollment) (c : Course)
    (hnd : e.completedLessons.Nodup)
    (hsub : e.completedLessons ⊆ (c.modules.flatMap (fun m => m.lessons)).map Lesson.id) :
    0 ≤ progressForEnrollment e c ∧ progressForEnrollment e c ≤ 100 := by
  have hlen : e.completedLessons.length ≤
      (c.modules.flatMap (fun m => m.lessons)).length := by
    have h := (List.Nodup.subperm hnd hsub).length_le
    simpa using h
  by_cases ht : (c.modules.flatMap (fun m => m.lessons)).length = 0
  · constructor <;> simp [progressForEnrollment, ht]
  · constructor
    · simp only [progressForEnrollment, if_neg ht]
      exact mathRound_nonneg _ _
    · simp only [progressForEnrollment, if_neg ht]
      exact mathRound_le_100 _ _ ht hlen

/-- Witness for C4 amended at the seeded enrollment and course. -/
theorem c4_witness :
    0 ≤ progressForEnrollment
        { id := "enroll-1", courseId := "c-design-thinking", learnerId := "u-learner",
          enrolledAt := "t-e", completedLessons := ["l-1"], completedAt := none }
        (seedCourse "u-mentor" "t-c") ∧
    progressForEnrollment
        { id := "enroll-1", courseId := "c-design-thinking", learnerId := "u-learner",
          enrolledAt := "t-e", completedLessons := ["l-1"], completedAt := none }
        (seedCourse "u-mentor" "t-c") ≤ 100 := by
  exact c4_progress_bounds
    { id := "enroll-1", courseId := "c-design-thinking", learnerId := "u-learner",
      enrolledAt := "t-e", completedLessons := ["l-1"], completedAt := none }
    (seedCourse "u-mentor" "t-c") (by decide) (by decide)

lemma addCert_pres (certs : Certificates) (learnerId courseId : String)
    (h : certAtMostOnce certs) : certAtMostOnce (addCert certs learnerId courseId) := by
  unfold addCert
  dsimp only
  split
  · exact h
  · rename_i hmem
    intro l
    dsimp only
    split
    · rename_i hl
      subst hl
      rw [List.nodup_append]
      exact ⟨h l, List.nodup_singleton courseId, by
        rw [List.disjoint_singleton]
        exact hmem⟩
    · exact h l

lemma toggleStep_pres (courses : List Course) (now enrollmentId lessonId : String)
    (acc : List Enrollment × Certificates) (e : Enrollment)
    (h : certAtMostOnce acc.2) :
    certAtMostOnce (toggleStep courses now enrollmentId lessonId acc e).2 := by
  unfold toggleStep
  split
  · dsimp only
    split
    · exact addCert_pres _ _ _ h
    · exact h
  · exact h

lemma toggleFold_pres (courses : List Course) (now enrollmentId lessonId : String)
    (es : List Enrollment) (acc : List Enrollment × Certificates)
    (h : certAtMostOnce acc.2) :
    certAtMostOnce ((es.foldl (toggleStep courses now enrollmentId lessonId) acc)).2 := by
  induction es generalizing acc with
  | nil => exact h
  | cons e es ih => exact ih _ (toggleStep_pres courses now enrollmentId lessonId acc e h)

lemma step_pres (s : DataState) (op : Op) (h : certAtMostOnce s.certificates) :
    certAtMostOnce (step s op).certificates := by
  cases op with
  | opCreateCourse freshId now payload => exact h
  | opAddModule courseId m => exact h
  | opAddLesson courseId moduleId lesson => exact h
  | opEnroll freshId now courseId learnerId =>
      show certAtMostOnce (enrollLearner freshId now s courseId learnerId).certificates
      unfold enrollLearner
      split <;> exact h
  | opToggle now enrollmentId lessonId =>
      exact toggleFold_pres s.courses now enrollmentId lessonId s.enrollments
        ([], s.certificates) h
  | opIssue courseId learnerId => exact addCert_pres _ _ _ h

lemma applyOps_pres (ops : List Op) (s : DataState)
    (h : certAtMostOnce s.certificates) :
    certAtMostOnce (applyOps s ops).certificates := by
  induction ops generalizing s with
  | nil => exact h
  | cons op ops ih => exact ih (step s op) (step_pres s op h)

/-- C3: starting from the seeded provider state, after any sequence of
DataContext operations — enrollments, lesson toggles (which fire the
certificate branch on every completion), and direct `issueCertificate`
calls included — every learner's certificate list holds any course id at
most once: at most one certificate ever exists per (learner, course)
pair. -/
theorem c3_at_most_one_certificate (instructorId createdAt enrolledAt : String)
    (ops : List Op) (learnerId courseId : String) :
    ((applyOps (initialDataState instructorId createdAt enrolledAt) ops).certificates
        learnerId).count courseId ≤ 1 := by
  have hinit : certAtMostOnce (initialDataState instructorId createdAt enrolledAt).certificates :=
    fun _ => List.nodup_nil
  have h := applyOps_pres ops (initialDataState instructorId createdAt enrolledAt) hinit
  exact List.nodup_iff_count_le_one.mp (h learnerId) courseId

end PulseLearn
